import Mathlib

/-!
Shallow embedding of the hand-gesture volume controller
(`src/gesture_manager.py`, `src/volume_controller.py`,
`src/config_manager.py`) and proofs about the claims of its
specification.

Conventions of the embedding:
* Landmark coordinates are rationals (`ℚ`); the Python floats are used
  only through arithmetic, comparisons and averages, all of which the
  claims state exactly, so exact rational arithmetic is the faithful
  model for them.
* `math.sqrt` appears in the source only (a) inside comparisons of a
  distance against a nonnegative constant threshold, which we embed as
  the equivalent comparison of the squared distance against the squared
  threshold (sqrt is strictly monotone on nonnegatives), and (b) in the
  angle helper, which we embed over `ℝ` with `Real.sqrt` directly.
-/

namespace HandGesture

/-- A 2D landmark or screen position with rational coordinates,
mirroring the `{x, y}` points the Python code consumes. -/
structure Point where
  x : ℚ
  y : ℚ
deriving DecidableEq

/-- Handedness label passed to the classifiers (`'Right'` / `'Left'`). -/
inductive Handedness where
  | left
  | right
deriving DecidableEq

/-- The closed `GestureType` enumeration from `gesture_manager.py`. -/
inductive GestureType where
  | pinch
  | openHand
  | peace
  | thumbsUp
  | rock
  | okSign
  | palm
  | swipeLeft
  | swipeRight
  | swipeUp
  | swipeDown
  | point
  | fist
  | unknown
deriving DecidableEq

/-- A full 21-landmark hand observation, indexed 0..20 as in MediaPipe. -/
abbrev Landmarks := Fin 21 → Point

/-- Squared Euclidean distance between two points.  The source's
`calculate_distance` returns the square root of this quantity; every use
of it in the gesture cascade is a comparison against a nonnegative
constant `c`, and `sqrt d < c ↔ d < c^2` (resp. `>`), so the embedding
keeps the square and squares each threshold at the use sites. -/
def calculate_distance_sq (point1 point2 : Point) : ℚ :=
  (point1.x - point2.x) ^ 2 + (point1.y - point2.y) ^ 2

/-- Embeds `GestureManager.is_finger_raised`: tip strictly above pip in
landmark space (y grows downward). -/
def is_finger_raised (finger_tip finger_pip : Point) : Bool :=
  decide (finger_tip.y < finger_pip.y)

/-- Embeds `GestureManager.count_raised_fingers`: counts tips 4,8,12,16,20
against pips 3,6,10,14,18, every one of them (the thumb included) by
the y comparison of `is_finger_raised`; the handedness argument is
accepted but never read, exactly as in the source. -/
def count_raised_fingers (landmarks : Landmarks) (handedness : Handedness) : Nat :=
  (if is_finger_raised (landmarks 4) (landmarks 3) then 1 else 0) +
  (if is_finger_raised (landmarks 8) (landmarks 6) then 1 else 0) +
  (if is_finger_raised (landmarks 12) (landmarks 10) then 1 else 0) +
  (if is_finger_raised (landmarks 16) (landmarks 14) then 1 else 0) +
  (if is_finger_raised (landmarks 20) (landmarks 18) then 1 else 0)

/-- Embeds `GestureManager.detect_peace_sign` (handedness accepted, unused). -/
def detect_peace_sign (landmarks : Landmarks) (handedness : Handedness) : Bool :=
  is_finger_raised (landmarks 8) (landmarks 6) &&
  is_finger_raised (landmarks 12) (landmarks 10) &&
  !is_finger_raised (landmarks 16) (landmarks 14) &&
  !is_finger_raised (landmarks 20) (landmarks 18)

/-- Embeds `GestureManager.detect_thumbs_up`: thumb tip above thumb pip and
above the middle-finger MCP, with tip-to-pip distance exceeding 0.05
(embedded as squared distance exceeding 0.05^2). -/
def detect_thumbs_up (landmarks : Landmarks) : Bool :=
  let thumb_tip := landmarks 4
  let thumb_pip := landmarks 3
  let middle_finger_mcp := landmarks 9
  decide (thumb_tip.y < thumb_pip.y) &&
  decide (thumb_tip.y < middle_finger_mcp.y) &&
  decide (calculate_distance_sq thumb_tip thumb_pip > (0.05 : ℚ) ^ 2)

/-- Embeds `GestureManager.detect_rock_gesture`. -/
def detect_rock_gesture (landmarks : Landmarks) : Bool :=
  is_finger_raised (landmarks 8) (landmarks 6) &&
  is_finger_raised (landmarks 20) (landmarks 18) &&
  !is_finger_raised (landmarks 12) (landmarks 10) &&
  !is_finger_raised (landmarks 16) (landmarks 14)

/-- Embeds `GestureManager.detect_ok_sign`. -/
def detect_ok_sign (landmarks : Landmarks) : Bool :=
  let other_fingers_up : Nat :=
    (if is_finger_raised (landmarks 12) (landmarks 10) then 1 else 0) +
    (if is_finger_raised (landmarks 16) (landmarks 14) then 1 else 0) +
    (if is_finger_raised (landmarks 20) (landmarks 18) then 1 else 0)
  decide (calculate_distance_sq (landmarks 4) (landmarks 8) < (0.05 : ℚ) ^ 2) &&
  decide (other_fingers_up ≥ 2)

/-- Embeds `GestureManager.detect_pointing`. -/
def detect_pointing (landmarks : Landmarks) : Bool :=
  is_finger_raised (landmarks 8) (landmarks 6) &&
  !is_finger_raised (landmarks 12) (landmarks 10) &&
  !is_finger_raised (landmarks 16) (landmarks 14) &&
  !is_finger_raised (landmarks 20) (landmarks 18)

/-- Embeds `GestureManager.detect_palm_open`: the thumb contributes through
the y comparison `landmarks[4].y < landmarks[3].y`, as in the source. -/
def detect_palm_open (landmarks : Landmarks) : Bool :=
  let raised_count : Nat :=
    (if is_finger_raised (landmarks 8) (landmarks 6) then 1 else 0) +
    (if is_finger_raised (landmarks 12) (landmarks 10) then 1 else 0) +
    (if is_finger_raised (landmarks 16) (landmarks 14) then 1 else 0) +
    (if is_finger_raised (landmarks 20) (landmarks 18) then 1 else 0) +
    (if (landmarks 4).y < (landmarks 3).y then 1 else 0)
  decide (raised_count ≥ 4)

/-- Embeds `GestureManager.detect_fist`. -/
def detect_fist (landmarks : Landmarks) : Bool :=
  let raised_count : Nat :=
    (if is_finger_raised (landmarks 8) (landmarks 6) then 1 else 0) +
    (if is_finger_raised (landmarks 12) (landmarks 10) then 1 else 0) +
    (if is_finger_raised (landmarks 16) (landmarks 14) then 1 else 0) +
    (if is_finger_raised (landmarks 20) (landmarks 18) then 1 else 0)
  decide (raised_count = 0)

/-- Embeds `GestureManager.swipe_threshold` (set in the constructor). -/
def swipe_threshold : ℚ := 0.1

/-- Embeds `GestureManager.min_gesture_frames` (set in the constructor). -/
def min_gesture_frames : Nat := 3

/-- Embeds `GestureManager.detect_swipe`: requires at least
`min_gesture_frames` samples, measures displacement from the oldest
sample `history_positions[0]`, normalizes both axes by the frame width,
then classifies by the two guarded strict comparisons.  The `head?`
match is the embedding of the Python index `history_positions[0]`,
unreachable in the `none` case under the length guard. -/
def detect_swipe (current_position : ℚ × ℚ) (history_positions : List (ℚ × ℚ))
    (frame_width : ℚ) : Option GestureType :=
  if history_positions.length < min_gesture_frames then
    none
  else
    match history_positions.head? with
    | none => none
    | some oldest_position =>
      let displacement_x := (current_position.1 - oldest_position.1) / frame_width
      let displacement_y := (current_position.2 - oldest_position.2) / frame_width
      if |displacement_x| > swipe_threshold ∧ |displacement_x| > |displacement_y| then
        some (if displacement_x > 0 then GestureType.swipeRight else GestureType.swipeLeft)
      else if |displacement_y| > swipe_threshold ∧ |displacement_y| > |displacement_x| then
        some (if displacement_y < 0 then GestureType.swipeUp else GestureType.swipeDown)
      else
        none

/-- Embeds `GestureManager.recognize_gesture`: the fixed cascade, first match
wins; pinch/open-hand thresholds 0.05 and 0.15 are embedded as squared
comparisons of the squared thumb-index distance. -/
def recognize_gesture (landmarks : Landmarks) (handedness : Handedness)
    (hand_center : ℚ × ℚ) (history_positions : List (ℚ × ℚ))
    (frame_width : ℚ) : GestureType :=
  if detect_thumbs_up landmarks then GestureType.thumbsUp
  else if detect_peace_sign landmarks handedness then GestureType.peace
  else if detect_rock_gesture landmarks then GestureType.rock
  else if detect_ok_sign landmarks then GestureType.okSign
  else if detect_pointing landmarks then GestureType.point
  else if detect_palm_open landmarks then GestureType.palm
  else if detect_fist landmarks then GestureType.fist
  else
    match detect_swipe hand_center history_positions frame_width with
    | some swipe => swipe
    | none =>
      let thumb_index_dist_sq := calculate_distance_sq (landmarks 4) (landmarks 8)
      if thumb_index_dist_sq < (0.05 : ℚ) ^ 2 then GestureType.pinch
      else if thumb_index_dist_sq > (0.15 : ℚ) ^ 2 then GestureType.openHand
      else GestureType.unknown

/-- The mutable state a `GestureManager` instance owns: the
`hand_positions` deque declared in `__init__` (capacity
`history_length`).  No method of the module ever appends to it. -/
structure GestureManagerState where
  hand_positions : List (ℚ × ℚ)
deriving DecidableEq

/-- One call of `GestureManager.recognize_gesture` viewed as a state
transformer on the instance: the method reads its inputs (the history
is an explicit argument) and writes no instance field, so the state is
returned unchanged. -/
def recognize_step (s : GestureManagerState) (landmarks : Landmarks)
    (handedness : Handedness) (hand_center : ℚ × ℚ) (frame_width : ℚ) :
    GestureType × GestureManagerState :=
  (recognize_gesture landmarks handedness hand_center s.hand_positions frame_width, s)

/-- Embeds `HandGestureVolumeController.count_fingers`: the thumb is tested on
the x axis with the direction depending on handedness (`'Right'`:
tip.x < pip.x; otherwise tip.x > pip.x); the other four fingers are
tested on the y axis. -/
def count_fingers (hand_landmarks : Landmarks) (handedness : Handedness) : Nat :=
  (match handedness with
   | Handedness.right => if (hand_landmarks 4).x < (hand_landmarks 3).x then 1 else 0
   | Handedness.left => if (hand_landmarks 4).x > (hand_landmarks 3).x then 1 else 0) +
  (if (hand_landmarks 8).y < (hand_landmarks 6).y then 1 else 0) +
  (if (hand_landmarks 12).y < (hand_landmarks 10).y then 1 else 0) +
  (if (hand_landmarks 16).y < (hand_landmarks 14).y then 1 else 0) +
  (if (hand_landmarks 20).y < (hand_landmarks 18).y then 1 else 0)

/-- The controller's smoothing window: `deque(maxlen=smoothing_window)`
with the constructor default 5. -/
def smoothing_window : Nat := 5

/-- Appending to a `deque(maxlen=cap)`: the new element goes to the
right and the oldest (leftmost) element is evicted when the deque is at
capacity. -/
def deque_append (cap : Nat) (l : List ℚ) (d : ℚ) : List ℚ :=
  let appended := l ++ [d]
  if appended.length > cap then appended.tail else appended

/-- Arithmetic mean `sum(l) / len(l)` of a distance window. -/
def mean (l : List ℚ) : ℚ :=
  l.sum / l.length

/-- The volume mapping of `process_frame`:
`max(0, min(100, (smoothed_distance - 0.02) / (0.3 - 0.02) * 100))`. -/
def map_volume (smoothed_distance : ℚ) : ℚ :=
  max 0 (min 100 ((smoothed_distance - 0.02) / (0.3 - 0.02) * 100))

/-- The volume path of one `process_frame` call.  The input is `none`
when no hand is detected (the history is untouched and no level is
emitted) and `some distance` when a hand is detected, `distance` being
the thumb-tip-to-index-tip control distance of that frame.  With a hand
detected the code appends the distance, averages the window, maps the
mean, and always ends by calling `set_volume` on the result: the second
component is `some level` exactly when the actuator is called with
`level`. -/
def process_frame_volume (distance_history : List ℚ) (observation : Option ℚ) :
    List ℚ × Option ℚ :=
  match observation with
  | none => (distance_history, none)
  | some distance =>
    let h := deque_append smoothing_window distance_history distance
    (h, some (map_volume (mean h)))

/-- The `VolumeConfig` dataclass of `config_manager.py` with its field
defaults. -/
structure VolumeConfig where
  min_distance : ℚ := 0.02
  max_distance : ℚ := 0.3
  smoothing_window : ℤ := 5
  sensitivity : ℚ := 1
  min_change_threshold : ℚ := 2
deriving DecidableEq

/-- The default-constructed `VolumeConfig()`. -/
def default_volume_config : VolumeConfig := {}

/-- Construction of a `VolumeConfig`, with an error channel for the
construction-time failure the spec calls for.  A Python dataclass
generates an `__init__` that assigns the fields and performs no
validation (the class has no `__post_init__`), so construction always
succeeds. -/
def mkVolumeConfig (min_distance max_distance : ℚ) (smoothing_window : ℤ)
    (sensitivity min_change_threshold : ℚ) : Except String VolumeConfig :=
  Except.ok
    { min_distance := min_distance
      max_distance := max_distance
      smoothing_window := smoothing_window
      sensitivity := sensitivity
      min_change_threshold := min_change_threshold }

/-- Stated per the spec's words, for comparison with the code: the
bounds the spec requires to hold at construction (distances ≥ 0,
maxDistance > minDistance, window sizes ≥ 1). -/
def spec_config_in_bounds (c : VolumeConfig) : Bool :=
  decide (0 ≤ c.min_distance) &&
  decide (c.min_distance < c.max_distance) &&
  decide (1 ≤ c.smoothing_window)

/-- Stated per the claim's words, for comparison with the code: the
thumb "raised" test as an x comparison mirrored by handedness. -/
def spec_thumb_raised_by_x (landmarks : Landmarks) (handedness : Handedness) : Bool :=
  match handedness with
  | Handedness.right => decide ((landmarks 4).x < (landmarks 3).x)
  | Handedness.left => decide ((landmarks 4).x > (landmarks 3).x)

/-- Reflect a point across the y axis (negate x). -/
def reflectX (p : Point) : Point :=
  { x := -p.x, y := p.y }

/-- Reflect every landmark's x coordinate. -/
def reflect_landmarks (landmarks : Landmarks) : Landmarks :=
  fun i => reflectX (landmarks i)

/-- Swap a handedness label. -/
def swap_hand : Handedness → Handedness
  | Handedness.left => Handedness.right
  | Handedness.right => Handedness.left

/-- A point with real coordinates, for the angle helper (which composes
square roots and arc cosines, so it is embedded over `ℝ`). -/
structure PointR where
  x : ℝ
  y : ℝ

noncomputable section

/-- Embeds `GestureManager.calculate_distance` over `ℝ`:
`sqrt((x1-x2)^2 + (y1-y2)^2)`. -/
def calculate_distance (point1 point2 : PointR) : ℝ :=
  Real.sqrt ((point1.x - point2.x) ^ 2 + (point1.y - point2.y) ^ 2)

/-- Embeds `GestureManager.calculate_angle`: the angle at `point2` by the law
of cosines; returns 0 when either adjacent side is exactly 0, clamps
the cosine argument to [-1, 1], and converts the arc cosine to degrees
(`math.degrees(t) = t * 180 / pi`). -/
def calculate_angle (point1 point2 point3 : PointR) : ℝ :=
  let a := calculate_distance point1 point2
  let b := calculate_distance point2 point3
  let c := calculate_distance point1 point3
  if a = 0 ∨ b = 0 then 0
  else
    let cos_angle := (a ^ 2 + b ^ 2 - c ^ 2) / (2 * a * b)
    let clamped := max (-1) (min 1 cos_angle)
    Real.arccos clamped * 180 / Real.pi

end

/-!
A second model of `recognize_gesture` over a raw landmark list, for the
safety claim: Python indexing `landmarks[i]` raises `IndexError` out of
bounds, which we embed as `Option` propagation through every access the
cascade performs, at the same indices and in the same order as the
source.
-/

/-- Embeds `detect_thumbs_up` over a raw list: accesses 4, 3, 9. -/
def detect_thumbs_up? (landmarks : List Point) : Option Bool := do
  let thumb_tip ← landmarks[4]?
  let thumb_pip ← landmarks[3]?
  let middle_finger_mcp ← landmarks[9]?
  pure (decide (thumb_tip.y < thumb_pip.y) &&
    decide (thumb_tip.y < middle_finger_mcp.y) &&
    decide (calculate_distance_sq thumb_tip thumb_pip > (0.05 : ℚ) ^ 2))

/-- Embeds `is_finger_raised` over two list accesses. -/
def finger_raised? (landmarks : List Point) (tip pip : Nat) : Option Bool := do
  let t ← landmarks[tip]?
  let p ← landmarks[pip]?
  pure (is_finger_raised t p)

/-- Embeds `detect_peace_sign` over a raw list. -/
def detect_peace_sign? (landmarks : List Point) : Option Bool := do
  let i ← finger_raised? landmarks 8 6
  let m ← finger_raised? landmarks 12 10
  let r ← finger_raised? landmarks 16 14
  let p ← finger_raised? landmarks 20 18
  pure (i && m && !r && !p)

/-- Embeds `detect_rock_gesture` over a raw list. -/
def detect_rock_gesture? (landmarks : List Point) : Option Bool := do
  let i ← finger_raised? landmarks 8 6
  let p ← finger_raised? landmarks 20 18
  let m ← finger_raised? landmarks 12 10
  let r ← finger_raised? landmarks 16 14
  pure (i && p && !m && !r)

/-- Embeds `detect_ok_sign` over a raw list. -/
def detect_ok_sign? (landmarks : List Point) : Option Bool := do
  let thumb ← landmarks[4]?
  let index ← landmarks[8]?
  let m ← finger_raised? landmarks 12 10
  let r ← finger_raised? landmarks 16 14
  let p ← finger_raised? landmarks 20 18
  let cnt : Nat := (if m then 1 else 0) + (if r then 1 else 0) + (if p then 1 else 0)
  pure (decide (calculate_distance_sq thumb index < (0.05 : ℚ) ^ 2) && decide (cnt ≥ 2))

/-- Embeds `detect_pointing` over a raw list. -/
def detect_pointing? (landmarks : List Point) : Option Bool := do
  let i ← finger_raised? landmarks 8 6
  let m ← finger_raised? landmarks 12 10
  let r ← finger_raised? landmarks 16 14
  let p ← finger_raised? landmarks 20 18
  pure (i && !m && !r && !p)

/-- Embeds `detect_palm_open` over a raw list: accesses 8,6,12,10,16,14,20,18
and the thumb pair 4, 3. -/
def detect_palm_open? (landmarks : List Point) : Option Bool := do
  let i ← finger_raised? landmarks 8 6
  let m ← finger_raised? landmarks 12 10
  let r ← finger_raised? landmarks 16 14
  let p ← finger_raised? landmarks 20 18
  let thumb_tip ← landmarks[4]?
  let thumb_pip ← landmarks[3]?
  let cnt : Nat := (if i then 1 else 0) + (if m then 1 else 0) +
    (if r then 1 else 0) + (if p then 1 else 0) +
    (if thumb_tip.y < thumb_pip.y then 1 else 0)
  pure (decide (cnt ≥ 4))

/-- Embeds `detect_fist` over a raw list. -/
def detect_fist? (landmarks : List Point) : Option Bool := do
  let i ← finger_raised? landmarks 8 6
  let m ← finger_raised? landmarks 12 10
  let r ← finger_raised? landmarks 16 14
  let p ← finger_raised? landmarks 20 18
  let cnt : Nat := (if i then 1 else 0) + (if m then 1 else 0) +
    (if r then 1 else 0) + (if p then 1 else 0)
  pure (decide (cnt = 0))

/-- Embeds `recognize_gesture` over a raw list, every landmark access
`Option`-guarded; `none` models an uncaught `IndexError`. -/
def recognize_gesture? (landmarks : List Point) (handedness : Handedness)
    (hand_center : ℚ × ℚ) (history_positions : List (ℚ × ℚ))
    (frame_width : ℚ) : Option GestureType := do
  let _ := handedness
  if ← detect_thumbs_up? landmarks then return GestureType.thumbsUp
  if ← detect_peace_sign? landmarks then return GestureType.peace
  if ← detect_rock_gesture? landmarks then return GestureType.rock
  if ← detect_ok_sign? landmarks then return GestureType.okSign
  if ← detect_pointing? landmarks then return GestureType.point
  if ← detect_palm_open? landmarks then return GestureType.palm
  if ← detect_fist? landmarks then return GestureType.fist
  match detect_swipe hand_center history_positions frame_width with
  | some swipe => return swipe
  | none =>
    let thumb ← landmarks[4]?
    let index ← landmarks[8]?
    let thumb_index_dist_sq := calculate_distance_sq thumb index
    if thumb_index_dist_sq < (0.05 : ℚ) ^ 2 then return GestureType.pinch
    else if thumb_index_dist_sq > (0.15 : ℚ) ^ 2 then return GestureType.openHand
    else return GestureType.unknown

/-- Read a 21-landmark observation out of a raw list (default point for
the out-of-range case, which the length hypothesis rules out). -/
def landmarks_of_list (landmarks : List Point) : Landmarks :=
  fun i => landmarks.getD i.1 { x := 0, y := 0 }

/-- Fixture: every landmark at (0.5, 0.5). -/
def lmsConst : Landmarks :=
  fun _ => { x := 0.5, y := 0.5 }

/-- Fixture: a thumbs-up hand — thumb tip (0.5, 0.1) above thumb pip
(0.5, 0.3) and above the middle MCP (0.5, 0.5), tip-pip distance 0.2. -/
def lmsThumbsUp : Landmarks := fun i =>
  if i = 4 then { x := 0.5, y := 0.1 }
  else if i = 3 then { x := 0.5, y := 0.3 }
  else { x := 0.5, y := 0.5 }

/-- Fixture: thumb tip x (0.1) left of thumb pip x (0.2) — raised for a
right hand under the x test — but thumb tip y (0.9) below thumb pip y
(0.1), so lowered under the y test; every other landmark at (0.5, 0.5),
so no other finger is raised. -/
def lmsThumbX : Landmarks := fun i =>
  if i = 4 then { x := 0.1, y := 0.9 }
  else if i = 3 then { x := 0.2, y := 0.1 }
  else { x := 0.5, y := 0.5 }

/-- Fixture: same x coordinates as `lmsThumbX` everywhere, but the
thumb tip moved up on the y axis (y = 0.05 < pip y = 0.1). -/
def lmsThumbY : Landmarks := fun i =>
  if i = 4 then { x := 0.1, y := 0.05 }
  else if i = 3 then { x := 0.2, y := 0.1 }
  else { x := 0.5, y := 0.5 }

/-! ## Claims -/

/-- C1, counterexample.  Two consecutive frames with the same control
distance 0.16: each maps to level 50, the second mapped level differs
from the first emitted one by 0 < 2.0 = `min_change_threshold`, yet the
second call still emits `some 50` (the actuator is called), instead of
the suppression (`none`) the claim requires. -/
theorem C1_counterexample :
    (process_frame_volume [] (some 0.16)).2 = some 50 ∧
    (process_frame_volume (process_frame_volume [] (some 0.16)).1 (some 0.16)).2 = some 50 ∧
    |(50 : ℚ) - 50| < default_volume_config.min_change_threshold := by
  norm_num [process_frame_volume, deque_append, smoothing_window, mean, map_volume,
    default_volume_config]

/-- C1, amended: `process_frame` applies no minimum-change gate — on a
frame with a detected hand the newly mapped level is always emitted and
the actuator always called, even when the level differs from any
previously emitted level by less than the declared (and never
consulted) `min_change_threshold`. -/
theorem C1_no_min_change_gate (distance_history : List ℚ) (distance last_emitted : ℚ)
    (h : |map_volume (mean (deque_append smoothing_window distance_history distance)) -
      last_emitted| < default_volume_config.min_change_threshold) :
    (process_frame_volume distance_history (some distance)).2 =
      some (map_volume (mean (deque_append smoothing_window distance_history distance))) :=
  rfl

/-- C1, witness for the amended theorem at history `[]`, distance 0.16,
last emitted level 50. -/
theorem C1_witness :
    |map_volume (mean (deque_append smoothing_window [] 0.16)) - 50| <
      default_volume_config.min_change_threshold ∧
    (process_frame_volume [] (some 0.16)).2 =
      some (map_volume (mean (deque_append smoothing_window [] 0.16))) :=
  ⟨by norm_num [map_volume, mean, deque_append, smoothing_window, default_volume_config],
   C1_no_min_change_gate [] 0.16 50
     (by norm_num [map_volume, mean, deque_append, smoothing_window, default_volume_config])⟩

/-- C3, counterexample.  A concrete `recognize_gesture` call on a
manager whose position history is empty: afterwards the history is
still empty, not `[hand_center]` as the claimed unconditional append
would make it. -/
theorem C3_counterexample :
    ((recognize_step { hand_positions := [] } lmsConst Handedness.right
      (0.5, 0.5) 1).2).hand_positions = [] ∧
    ([] : List (ℚ × ℚ)) ≠ [(0.5, 0.5)] := by
  exact ⟨rfl, by decide⟩

/-- C3, amended: `recognize_gesture` reads the position history (passed
to it as an explicit argument) but never modifies it; no code in the
repository appends the hand center to `hand_positions`, so maintaining
the history is left entirely to the caller. -/
theorem C3_recognize_leaves_history_unchanged (s : GestureManagerState)
    (landmarks : Landmarks) (handedness : Handedness) (hand_center : ℚ × ℚ)
    (frame_width : ℚ) :
    (recognize_step s landmarks handedness hand_center frame_width).2 = s :=
  rfl

/-- C4, counterexample.  Constructing a `VolumeConfig` with
`min_distance = -1` (a distance below 0) and `smoothing_window = 0` (a
window size below 1) succeeds, although the configuration violates the
spec's bounds — construction performs no validation. -/
theorem C4_counterexample :
    mkVolumeConfig (-1) 0.3 0 1 2 = Except.ok ⟨-1, 0.3, 0, 1, 2⟩ ∧
    spec_config_in_bounds ⟨-1, 0.3, 0, 1, 2⟩ = false := by
  refine ⟨rfl, ?_⟩
  norm_num [spec_config_in_bounds]

/-- C4, amended: construction of a `VolumeConfig` performs no bounds
validation and succeeds for every combination of argument values, in or
out of the spec's bounds. -/
theorem C4_construction_never_fails (min_distance max_distance : ℚ)
    (smoothing_window : ℤ) (sensitivity min_change_threshold : ℚ) :
    mkVolumeConfig min_distance max_distance smoothing_window sensitivity
      min_change_threshold =
      Except.ok ⟨min_distance, max_distance, smoothing_window, sensitivity,
        min_change_threshold⟩ :=
  rfl

/-- C5, counterexample.  On `lmsThumbX` (right hand) the x test of the
claim reports the thumb raised, and indeed the volume controller's
`count_fingers` counts 1; but the gesture manager's
`count_raised_fingers` counts 0, and moving only the thumb's y
coordinate (`lmsThumbY`, identical x everywhere) flips its verdict to
1 — its thumb test reads y, not x. -/
theorem C5_counterexample :
    spec_thumb_raised_by_x lmsThumbX Handedness.right = true ∧
    count_fingers lmsThumbX Handedness.right = 1 ∧
    count_raised_fingers lmsThumbX Handedness.right = 0 ∧
    count_raised_fingers lmsThumbY Handedness.right = 1 ∧
    (∀ i, (lmsThumbY i).x = (lmsThumbX i).x) := by
  refine ⟨?_, ?_, ?_, ?_, ?_⟩
  · simp +decide [spec_thumb_raised_by_x, lmsThumbX]; norm_num
  · simp +decide [count_fingers, lmsThumbX]; norm_num
  · simp +decide [count_raised_fingers, is_finger_raised, lmsThumbX]; norm_num
  · simp +decide [count_raised_fingers, is_finger_raised, lmsThumbY]; norm_num
  · intro i
    by_cases h4 : i = 4
    · subst h4; norm_num [lmsThumbX, lmsThumbY]
    · by_cases h3 : i = 3
      · subst h3; simp +decide [lmsThumbX, lmsThumbY]
      · simp [lmsThumbX, lmsThumbY, h3, h4]

/-- C5, amended: only the volume controller's `count_fingers` tests the
thumb by x with handedness mirroring — reflecting every x coordinate
and swapping the handedness label leaves its count unchanged; the
gesture manager's `count_raised_fingers` and `detect_palm_open` test
the thumb by y (`tip.y < pip.y`) and are independent of handedness. -/
theorem C5_thumb_raised_tests (landmarks : Landmarks) (handedness : Handedness) :
    count_fingers (reflect_landmarks landmarks) (swap_hand handedness) =
      count_fingers landmarks handedness ∧
    count_raised_fingers landmarks handedness =
      count_raised_fingers landmarks Handedness.right ∧
    detect_palm_open (reflect_landmarks landmarks) = detect_palm_open landmarks := by
  refine ⟨?_, rfl, rfl⟩
  cases handedness <;>
    simp [count_fingers, reflect_landmarks, reflectX, swap_hand]

/-- C7: with fewer than `min_gesture_frames` (default 3) samples in the
history, `detect_swipe` returns `none`, whatever the displacement. -/
theorem C7_short_history_no_swipe (current_position : ℚ × ℚ)
    (history_positions : List (ℚ × ℚ)) (frame_width : ℚ)
    (h : history_positions.length < min_gesture_frames) :
    detect_swipe current_position history_positions frame_width = none := by
  simp [detect_swipe, h]

/-- C7, witness: one retained sample and a displacement of 9 frame
widths still yields `none`. -/
theorem C7_witness :
    [((0 : ℚ), (0 : ℚ))].length < min_gesture_frames ∧
    detect_swipe (9, 9) [(0, 0)] 1 = none :=
  ⟨by decide, C7_short_history_no_swipe (9, 9) [(0, 0)] 1 (by decide)⟩

/-- The x displacement of `detect_swipe`, normalized by frame width. -/
def norm_dx (current_position oldest_position : ℚ × ℚ) (frame_width : ℚ) : ℚ :=
  (current_position.1 - oldest_position.1) / frame_width

/-- The y displacement of `detect_swipe`, normalized by frame width. -/
def norm_dy (current_position oldest_position : ℚ × ℚ) (frame_width : ℚ) : ℚ :=
  (current_position.2 - oldest_position.2) / frame_width

/-- C6: with enough history and a positive frame width, `detect_swipe`
is the claimed case analysis on the frame-width-normalized displacement
from the oldest retained sample (`history.head?`) to the current
center: SwipeRight / SwipeLeft when the x magnitude beats both the 0.1
threshold and the y magnitude with the stated sign, SwipeUp / SwipeDown
symmetrically on the y axis (up for negative dy), `none` when neither
guard fires, and in particular `none` whenever the two magnitudes tie. -/
theorem C6_detect_swipe_cases (current_position oldest_position : ℚ × ℚ)
    (history_positions : List (ℚ × ℚ)) (frame_width : ℚ)
    (hlen : min_gesture_frames ≤ history_positions.length)
    (hold : history_positions.head? = some oldest_position)
    (hw : 0 < frame_width) :
    (|norm_dx current_position oldest_position frame_width| > swipe_threshold ∧
        |norm_dx current_position oldest_position frame_width| >
          |norm_dy current_position oldest_position frame_width| ∧
        0 < norm_dx current_position oldest_position frame_width →
      detect_swipe current_position history_positions frame_width =
        some GestureType.swipeRight) ∧
    (|norm_dx current_position oldest_position frame_width| > swipe_threshold ∧
        |norm_dx current_position oldest_position frame_width| >
          |norm_dy current_position oldest_position frame_width| ∧
        norm_dx current_position oldest_position frame_width < 0 →
      detect_swipe current_position history_positions frame_width =
        some GestureType.swipeLeft) ∧
    (|norm_dy current_position oldest_position frame_width| > swipe_threshold ∧
        |norm_dy current_position oldest_position frame_width| >
          |norm_dx current_position oldest_position frame_width| ∧
        norm_dy current_position oldest_position frame_width < 0 →
      detect_swipe current_position history_positions frame_width =
        some GestureType.swipeUp) ∧
    (|norm_dy current_position oldest_position frame_width| > swipe_threshold ∧
        |norm_dy current_position oldest_position frame_width| >
          |norm_dx current_position oldest_position frame_width| ∧
        0 < norm_dy current_position oldest_position frame_width →
      detect_swipe current_position history_positions frame_width =
        some GestureType.swipeDown) ∧
    (¬(|norm_dx current_position oldest_position frame_width| > swipe_threshold ∧
        |norm_dx current_position oldest_position frame_width| >
          |norm_dy current_position oldest_position frame_width|) ∧
      ¬(|norm_dy current_position oldest_position frame_width| > swipe_threshold ∧
        |norm_dy current_position oldest_position frame_width| >
          |norm_dx current_position oldest_position frame_width|) →
      detect_swipe current_position history_positions frame_width = none) ∧
    (|norm_dx current_position oldest_position frame_width| =
        |norm_dy current_position oldest_position frame_width| →
      detect_swipe current_position history_positions frame_width = none) := by
  have hnot : ¬ history_positions.length < min_gesture_frames := not_lt.mpr hlen
  refine ⟨?_, ?_, ?_, ?_, ?_, ?_⟩
  · rintro ⟨h1, h2, h3⟩
    simp only [norm_dx, norm_dy] at h1 h2 h3
    simp only [detect_swipe, hold]
    rw [if_neg hnot, if_pos ⟨h1, h2⟩, if_pos h3]
  · rintro ⟨h1, h2, h3⟩
    simp only [norm_dx, norm_dy] at h1 h2 h3
    simp only [detect_swipe, hold]
    rw [if_neg hnot, if_pos ⟨h1, h2⟩, if_neg (not_lt.mpr h3.le)]
  · rintro ⟨h1, h2, h3⟩
    simp only [norm_dx, norm_dy] at h1 h2 h3
    simp only [detect_swipe, hold]
    rw [if_neg hnot, if_neg fun hc => absurd hc.2 (not_lt.mpr h2.le),
      if_pos ⟨h1, h2⟩, if_pos h3]
  · rintro ⟨h1, h2, h3⟩
    simp only [norm_dx, norm_dy] at h1 h2 h3
    simp only [detect_swipe, hold]
    rw [if_neg hnot, if_neg fun hc => absurd hc.2 (not_lt.mpr h2.le),
      if_pos ⟨h1, h2⟩, if_neg (not_lt.mpr h3.le)]
  · rintro ⟨hA, hB⟩
    simp only [norm_dx, norm_dy] at hA hB
    simp only [detect_swipe, hold]
    rw [if_neg hnot, if_neg hA, if_neg hB]
  · intro heq
    simp only [norm_dx, norm_dy] at heq
    have hA : ¬(|(current_position.1 - oldest_position.1) / frame_width| > swipe_threshold ∧
        |(current_position.1 - oldest_position.1) / frame_width| >
          |(current_position.2 - oldest_position.2) / frame_width|) := by
      rintro ⟨h1, h2⟩
      rw [heq] at h2
      exact lt_irrefl _ h2
    have hB : ¬(|(current_position.2 - oldest_position.2) / frame_width| > swipe_threshold ∧
        |(current_position.2 - oldest_position.2) / frame_width| >
          |(current_position.1 - oldest_position.1) / frame_width|) := by
      rintro ⟨h1, h2⟩
      rw [heq] at h2
      exact lt_irrefl _ h2
    simp only [detect_swipe, hold]
    rw [if_neg hnot, if_neg hA, if_neg hB]

/-- C6, witness: three retained samples at the origin, current center
(0.5, 0.1), frame width 1: dx = 0.5 beats the threshold and |dy|, so
SwipeRight. -/
theorem C6_witness :
    detect_swipe (0.5, 0.1) [(0, 0), (0, 0), (0, 0)] 1 = some GestureType.swipeRight :=
  (C6_detect_swipe_cases (0.5, 0.1) (0, 0) [(0, 0), (0, 0), (0, 0)] 1
    (by norm_num [min_gesture_frames]) rfl (by norm_num)).1
    (by
      have h2 : |(1 : ℚ) / 2| = 1 / 2 := abs_of_pos (by norm_num)
      have h10 : |(1 : ℚ) / 10| = 1 / 10 := abs_of_pos (by norm_num)
      norm_num [norm_dx, norm_dy, swipe_threshold, h2, h10])

/-- The mean of a nonempty constant window is the constant. -/
theorem mean_replicate (n : Nat) (c : ℚ) : mean (List.replicate (n + 1) c) = c := by
  have h : ((n : ℚ) + 1) ≠ 0 := by positivity
  simp [mean, List.sum_replicate, nsmul_eq_mul]
  field_simp

/-- C8: the volume update appends the control distance to the window
(evicting the leftmost sample when the window holds
`smoothing_window` = 5 samples), emits the affine image of the window
mean; the emitted level always lies in [0, 100], and a window holding
only the constant 0.02 (resp. 0.3) maps to exactly 0 (resp. 100). -/
theorem C8_volume_mapping (distance_history : List ℚ) (distance : ℚ) (n : Nat) :
    (0 ≤ map_volume (mean (deque_append smoothing_window distance_history distance)) ∧
      map_volume (mean (deque_append smoothing_window distance_history distance)) ≤ 100) ∧
    (process_frame_volume distance_history (some distance)).2 =
      some (map_volume (mean (deque_append smoothing_window distance_history distance))) ∧
    (distance_history.length = smoothing_window →
      deque_append smoothing_window distance_history distance =
        distance_history.tail ++ [distance]) ∧
    map_volume (mean (List.replicate (n + 1) 0.02)) = 0 ∧
    map_volume (mean (List.replicate (n + 1) 0.3)) = 100 := by
  refine ⟨⟨le_max_left _ _, max_le (by norm_num) (min_le_left _ _)⟩, rfl, ?_, ?_, ?_⟩
  · intro hlen
    cases distance_history with
    | nil => exact absurd hlen (by simp [smoothing_window])
    | cons a t =>
      have h5 : smoothing_window = 5 := rfl
      simp only [List.length_cons] at hlen
      have hgt : ((a :: t) ++ [distance]).length > smoothing_window := by
        simp only [List.length_append, List.length_cons, List.length_singleton]
        omega
      simp only [deque_append]
      rw [if_pos hgt]
      simp
  · rw [mean_replicate]
    norm_num [map_volume]
  · rw [mean_replicate]
    norm_num [map_volume]

/-- C8, witness: a full window [1,2,3,4,5] evicts the 1 on appending 6,
and a window of three samples at 0.02 maps to level 0. -/
theorem C8_witness :
    deque_append smoothing_window [1, 2, 3, 4, 5] 6 = List.tail [1, 2, 3, 4, 5] ++ [6] ∧
    map_volume (mean (List.replicate (2 + 1) 0.02)) = 0 :=
  ⟨(C8_volume_mapping [1, 2, 3, 4, 5] 6 2).2.2.1 rfl,
   (C8_volume_mapping [1, 2, 3, 4, 5] 6 2).2.2.2.1⟩

/-- C2: `recognize_gesture` evaluates its rules in the fixed order
thumbs-up, peace, rock, OK-sign, pointing, palm, fist, then swipe, then
the pinch/open-hand distance fallback, first match wins; in particular
every thumbs-up hand is classified ThumbsUp regardless of the swipe
history and of every later predicate. -/
theorem C2_cascade_order (landmarks : Landmarks) (handedness : Handedness)
    (hand_center : ℚ × ℚ) (history_positions : List (ℚ × ℚ)) (frame_width : ℚ) :
    (detect_thumbs_up landmarks = true →
      recognize_gesture landmarks handedness hand_center history_positions frame_width =
        GestureType.thumbsUp) ∧
    (detect_thumbs_up landmarks = false →
      detect_peace_sign landmarks handedness = true →
      recognize_gesture landmarks handedness hand_center history_positions frame_width =
        GestureType.peace) ∧
    (detect_thumbs_up landmarks = false →
      detect_peace_sign landmarks handedness = false →
      detect_rock_gesture landmarks = true →
      recognize_gesture landmarks handedness hand_center history_positions frame_width =
        GestureType.rock) ∧
    (detect_thumbs_up landmarks = false →
      detect_peace_sign landmarks handedness = false →
      detect_rock_gesture landmarks = false →
      detect_ok_sign landmarks = true →
      recognize_gesture landmarks handedness hand_center history_positions frame_width =
        GestureType.okSign) ∧
    (detect_thumbs_up landmarks = false →
      detect_peace_sign landmarks handedness = false →
      detect_rock_gesture landmarks = false →
      detect_ok_sign landmarks = false →
      detect_pointing landmarks = true →
      recognize_gesture landmarks handedness hand_center history_positions frame_width =
        GestureType.point) ∧
    (detect_thumbs_up landmarks = false →
      detect_peace_sign landmarks handedness = false →
      detect_rock_gesture landmarks = false →
      detect_ok_sign landmarks = false →
      detect_pointing landmarks = false →
      detect_palm_open landmarks = true →
      recognize_gesture landmarks handedness hand_center history_positions frame_width =
        GestureType.palm) ∧
    (detect_thumbs_up landmarks = false →
      detect_peace_sign landmarks handedness = false →
      detect_rock_gesture landmarks = false →
      detect_ok_sign landmarks = false →
      detect_pointing landmarks = false →
      detect_palm_open landmarks = false →
      detect_fist landmarks = true →
      recognize_gesture landmarks handedness hand_center history_positions frame_width =
        GestureType.fist) ∧
    (detect_thumbs_up landmarks = false →
      detect_peace_sign landmarks handedness = false →
      detect_rock_gesture landmarks = false →
      detect_ok_sign landmarks = false →
      detect_pointing landmarks = false →
      detect_palm_open landmarks = false →
      detect_fist landmarks = false →
      recognize_gesture landmarks handedness hand_center history_positions frame_width =
        (match detect_swipe hand_center history_positions frame_width with
         | some swipe => swipe
         | none =>
           if calculate_distance_sq (landmarks 4) (landmarks 8) < (0.05 : ℚ) ^ 2 then
             GestureType.pinch
           else if calculate_distance_sq (landmarks 4) (landmarks 8) > (0.15 : ℚ) ^ 2 then
             GestureType.openHand
           else GestureType.unknown)) := by
  refine ⟨?_, ?_, ?_, ?_, ?_, ?_, ?_, ?_⟩ <;>
    intros <;> simp only [recognize_gesture, *] <;> simp

/-- C2, witness: on the thumbs-up fixture the cascade returns ThumbsUp
(with an arbitrary history and frame width). -/
theorem C2_witness :
    detect_thumbs_up lmsThumbsUp = true ∧
    recognize_gesture lmsThumbsUp Handedness.right (0, 0) [] 1 = GestureType.thumbsUp := by
  have h : detect_thumbs_up lmsThumbsUp = true := by
    simp +decide [detect_thumbs_up, lmsThumbsUp, calculate_distance_sq]
    norm_num
  exact ⟨h, (C2_cascade_order lmsThumbsUp Handedness.right (0, 0) [] 1).1 h⟩

/-- C10: `calculate_angle` returns 0 when either adjacent side length
is exactly 0, and otherwise the arc cosine of the clamped cosine, so the
result always lies in the degree range [0, 180]. -/
theorem C10_calculate_angle_safe (point1 point2 point3 : PointR) :
    (calculate_distance point1 point2 = 0 ∨ calculate_distance point2 point3 = 0 →
      calculate_angle point1 point2 point3 = 0) ∧
    0 ≤ calculate_angle point1 point2 point3 ∧
    calculate_angle point1 point2 point3 ≤ 180 := by
  simp only [calculate_angle]
  by_cases h : calculate_distance point1 point2 = 0 ∨ calculate_distance point2 point3 = 0
  · rw [if_pos h]
    exact ⟨fun _ => rfl, le_refl 0, by norm_num⟩
  · rw [if_neg h]
    refine ⟨fun hc => absurd hc h, ?_, ?_⟩
    · exact div_nonneg (mul_nonneg (Real.arccos_nonneg _) (by norm_num)) Real.pi_pos.le
    · rw [div_le_iff₀ Real.pi_pos]
      calc Real.arccos _ * 180 ≤ Real.pi * 180 :=
            mul_le_mul_of_nonneg_right (Real.arccos_le_pi _) (by norm_num)
        _ = 180 * Real.pi := mul_comm _ _

/-- C10, witness: a degenerate triangle with the first adjacent side of
length 0 yields angle 0. -/
theorem C10_witness :
    calculate_angle ⟨0, 0⟩ ⟨0, 0⟩ ⟨1, 0⟩ = 0 :=
  (C10_calculate_angle_safe ⟨0, 0⟩ ⟨0, 0⟩ ⟨1, 0⟩).1
    (Or.inl (by norm_num [calculate_distance]))

/-- Every index below 21 is in range for a 21-landmark list, and the
`Option` access agrees with the total `getD` view of the list. -/
theorem get21 (landmarks : List Point) (hl : landmarks.length = 21) (i : Nat)
    (hi : i < 21) : landmarks[i]? = some (landmarks.getD i ⟨0, 0⟩) := by
  have h : i < landmarks.length := by omega
  rw [List.getElem?_eq_getElem h, List.getD_eq_getElem?_getD,
    List.getElem?_eq_getElem h]
  rfl

/-- Embeds `finger_raised?` succeeds on a 21-landmark list and agrees with the
total model. -/
theorem finger_raised?_eq (landmarks : List Point) (hl : landmarks.length = 21)
    (tip pip : Nat) (htip : tip < 21) (hpip : pip < 21) :
    finger_raised? landmarks tip pip =
      some (is_finger_raised (landmarks.getD tip ⟨0, 0⟩) (landmarks.getD pip ⟨0, 0⟩)) := by
  simp only [finger_raised?]
  rw [get21 landmarks hl tip htip, get21 landmarks hl pip hpip]
  rfl

/-- Embeds `detect_thumbs_up?` succeeds on a 21-landmark list and agrees with
the total model. -/
theorem detect_thumbs_up?_eq (landmarks : List Point) (hl : landmarks.length = 21) :
    detect_thumbs_up? landmarks = some (detect_thumbs_up (landmarks_of_list landmarks)) := by
  simp only [detect_thumbs_up?]
  rw [get21 landmarks hl 4 (by omega), get21 landmarks hl 3 (by omega),
    get21 landmarks hl 9 (by omega)]
  rfl

/-- Embeds `detect_peace_sign?` succeeds on a 21-landmark list and agrees with
the total model. -/
theorem detect_peace_sign?_eq (landmarks : List Point) (hl : landmarks.length = 21)
    (handedness : Handedness) :
    detect_peace_sign? landmarks =
      some (detect_peace_sign (landmarks_of_list landmarks) handedness) := by
  simp only [detect_peace_sign?]
  rw [finger_raised?_eq landmarks hl 8 6 (by omega) (by omega),
    finger_raised?_eq landmarks hl 12 10 (by omega) (by omega),
    finger_raised?_eq landmarks hl 16 14 (by omega) (by omega),
    finger_raised?_eq landmarks hl 20 18 (by omega) (by omega)]
  rfl

/-- Embeds `detect_rock_gesture?` succeeds on a 21-landmark list and agrees
with the total model. -/
theorem detect_rock_gesture?_eq (landmarks : List Point) (hl : landmarks.length = 21) :
    detect_rock_gesture? landmarks =
      some (detect_rock_gesture (landmarks_of_list landmarks)) := by
  simp only [detect_rock_gesture?]
  rw [finger_raised?_eq landmarks hl 8 6 (by omega) (by omega),
    finger_raised?_eq landmarks hl 20 18 (by omega) (by omega),
    finger_raised?_eq landmarks hl 12 10 (by omega) (by omega),
    finger_raised?_eq landmarks hl 16 14 (by omega) (by omega)]
  rfl

/-- Embeds `detect_ok_sign?` succeeds on a 21-landmark list and agrees with
the total model. -/
theorem detect_ok_sign?_eq (landmarks : List Point) (hl : landmarks.length = 21) :
    detect_ok_sign? landmarks = some (detect_ok_sign (landmarks_of_list landmarks)) := by
  simp only [detect_ok_sign?]
  rw [get21 landmarks hl 4 (by omega), get21 landmarks hl 8 (by omega),
    finger_raised?_eq landmarks hl 12 10 (by omega) (by omega),
    finger_raised?_eq landmarks hl 16 14 (by omega) (by omega),
    finger_raised?_eq landmarks hl 20 18 (by omega) (by omega)]
  rfl

/-- Embeds `detect_pointing?` succeeds on a 21-landmark list and agrees with
the total model. -/
theorem detect_pointing?_eq (landmarks : List Point) (hl : landmarks.length = 21) :
    detect_pointing? landmarks = some (detect_pointing (landmarks_of_list landmarks)) := by
  simp only [detect_pointing?]
  rw [finger_raised?_eq landmarks hl 8 6 (by omega) (by omega),
    finger_raised?_eq landmarks hl 12 10 (by omega) (by omega),
    finger_raised?_eq landmarks hl 16 14 (by omega) (by omega),
    finger_raised?_eq landmarks hl 20 18 (by omega) (by omega)]
  rfl

/-- Embeds `detect_palm_open?` succeeds on a 21-landmark list and agrees with
the total model. -/
theorem detect_palm_open?_eq (landmarks : List Point) (hl : landmarks.length = 21) :
    detect_palm_open? landmarks = some (detect_palm_open (landmarks_of_list landmarks)) := by
  simp only [detect_palm_open?]
  rw [finger_raised?_eq landmarks hl 8 6 (by omega) (by omega),
    finger_raised?_eq landmarks hl 12 10 (by omega) (by omega),
    finger_raised?_eq landmarks hl 16 14 (by omega) (by omega),
    finger_raised?_eq landmarks hl 20 18 (by omega) (by omega),
    get21 landmarks hl 4 (by omega), get21 landmarks hl 3 (by omega)]
  rfl

/-- Embeds `detect_fist?` succeeds on a 21-landmark list and agrees with the
total model. -/
theorem detect_fist?_eq (landmarks : List Point) (hl : landmarks.length = 21) :
    detect_fist? landmarks = some (detect_fist (landmarks_of_list landmarks)) := by
  simp only [detect_fist?]
  rw [finger_raised?_eq landmarks hl 8 6 (by omega) (by omega),
    finger_raised?_eq landmarks hl 12 10 (by omega) (by omega),
    finger_raised?_eq landmarks hl 16 14 (by omega) (by omega),
    finger_raised?_eq landmarks hl 20 18 (by omega) (by omega)]
  rfl

/-- C9: on every observation of exactly 21 landmarks, whatever the
handedness, center, history and frame width, `recognize_gesture` is
total: every landmark access it performs is in bounds (no `IndexError`,
embedded as the `Option`-guarded model never returning `none`) and it
returns exactly one `GestureType`, the one computed by the total
cascade with its Unknown default. -/
theorem C9_recognize_total (landmarks : List Point) (handedness : Handedness)
    (hand_center : ℚ × ℚ) (history_positions : List (ℚ × ℚ)) (frame_width : ℚ)
    (hl : landmarks.length = 21) :
    recognize_gesture? landmarks handedness hand_center history_positions frame_width =
      some (recognize_gesture (landmarks_of_list landmarks) handedness hand_center
        history_positions frame_width) := by
  simp only [recognize_gesture?, detect_thumbs_up?_eq landmarks hl,
    detect_peace_sign?_eq landmarks hl handedness,
    detect_rock_gesture?_eq landmarks hl, detect_ok_sign?_eq landmarks hl,
    detect_pointing?_eq landmarks hl, detect_palm_open?_eq landmarks hl,
    detect_fist?_eq landmarks hl, get21 landmarks hl 4 (by omega),
    get21 landmarks hl 8 (by omega)]
  cases h1 : detect_thumbs_up (landmarks_of_list landmarks) with
  | true => simp [recognize_gesture, h1]
  | false =>
  cases h2 : detect_peace_sign (landmarks_of_list landmarks) handedness with
  | true => simp [recognize_gesture, h1, h2]
  | false =>
  cases h3 : detect_rock_gesture (landmarks_of_list landmarks) with
  | true => simp [recognize_gesture, h1, h2, h3]
  | false =>
  cases h4 : detect_ok_sign (landmarks_of_list landmarks) with
  | true => simp [recognize_gesture, h1, h2, h3, h4]
  | false =>
  cases h5 : detect_pointing (landmarks_of_list landmarks) with
  | true => simp [recognize_gesture, h1, h2, h3, h4, h5]
  | false =>
  cases h6 : detect_palm_open (landmarks_of_list landmarks) with
  | true => simp [recognize_gesture, h1, h2, h3, h4, h5, h6]
  | false =>
  cases h7 : detect_fist (landmarks_of_list landmarks) with
  | true => simp [recognize_gesture, h1, h2, h3, h4, h5, h6, h7]
  | false =>
  cases hsw : detect_swipe hand_center history_positions frame_width with
  | some swipe => simp [recognize_gesture, h1, h2, h3, h4, h5, h6, h7, hsw]
  | none =>
    have e4 : landmarks_of_list landmarks 4 = landmarks.getD 4 ⟨0, 0⟩ := rfl
    have e8 : landmarks_of_list landmarks 8 = landmarks.getD 8 ⟨0, 0⟩ := rfl
    simp [recognize_gesture, h1, h2, h3, h4, h5, h6, h7, hsw, e4, e8]
    split_ifs <;> rfl

/-- C9, witness: a list of 21 identical landmarks is classified without
error (all classifiers reject, the thumb-index distance is 0 < 0.05, so
the fallback yields Pinch). -/
theorem C9_witness :
    (List.replicate 21 ({ x := 0.5, y := 0.5 } : Point)).length = 21 ∧
    recognize_gesture? (List.replicate 21 { x := 0.5, y := 0.5 }) Handedness.right
      (0, 0) [] 1 =
      some (recognize_gesture
        (landmarks_of_list (List.replicate 21 { x := 0.5, y := 0.5 }))
        Handedness.right (0, 0) [] 1) :=
  ⟨by simp, C9_recognize_total _ _ _ _ _ (by simp)⟩

end HandGesture
